import Mathlib

/-!
# bookstore-be: the HTTP handlers of `main.go`

A shallow embedding of the three handlers `check`, `createBook` and `getBooks`
of `main.go`, together with the parts of the Go standard library they drive:

* `http.ResponseWriter` (handler header map, the status line and header that are
  committed by the first `WriteHeader`/`Write`, the body, failing writes);
* `http.Error`;
* `json.Encoder.Encode` for `Book`, `[]Book` and the health-check map;
* the `log` package (the lines written to the server log).

What lies outside the process is a parameter of the handlers (`Env`): the result
of decoding the request body into a `Book`, and the answers of the database to
the `INSERT ... RETURNING id` and to the `SELECT`.
-/

namespace Bookstore

/-! ## Data model -/

/-- Go `uuid.UUID`, an array of sixteen bytes. -/
structure UUID where
  bytes : List (Fin 256)
  size : bytes.length = 16
deriving DecidableEq

/-- Go `uuid.Nil`, the zero value of `uuid.UUID`. -/
def UUID.Nil : UUID := ⟨List.replicate 16 0, by decide⟩

/-- Go `type Book struct` of `main.go`, lines 20-27. -/
structure Book where
  ID : UUID
  ISBN : String
  Name : String
  Author : String
  Year : String
  Publisher : String
deriving DecidableEq

/-- Zero value of `Book`, what `var book Book` declares. -/
def Book.zero : Book := ⟨UUID.Nil, "", "", "", "", ""⟩

/-- Go slice of `T`: `none` is the nil slice, `some l` a non-nil slice. -/
abbrev Slice (T : Type) := Option (List T)

/-- Go builtin `append(s, x)` with a single element. -/
def Slice.append {T : Type} (s : Slice T) (x : T) : Slice T :=
  match s with
  | none => some [x]
  | some l => some (l ++ [x])

/-! ## encoding/json, the encoder -/

/-- Lower-case hexadecimal digit of a value below sixteen. -/
def hexDigit (n : Nat) : Char :=
  if n < 10 then Char.ofNat (48 + n) else Char.ofNat (87 + n)

/-- Two hexadecimal digits of a byte. -/
def hexByte (b : Fin 256) : List Char := [hexDigit (b.val / 16), hexDigit (b.val % 16)]

/-- Hexadecimal digits of the bytes `i ≤ k < j` of a byte list. -/
def hexRange (bs : List (Fin 256)) (i j : Nat) : List Char :=
  ((bs.drop i).take (j - i)).flatMap hexByte

/-- Go `uuid.UUID.String`: the form `xxxxxxxx-xxxx-xxxx-xxxx-xxxxxxxxxxxx`. -/
def UUID.String (u : UUID) : String :=
  String.mk (hexRange u.bytes 0 4 ++ [Char.ofNat 45] ++ hexRange u.bytes 4 6 ++ [Char.ofNat 45]
    ++ hexRange u.bytes 6 8 ++ [Char.ofNat 45] ++ hexRange u.bytes 8 10 ++ [Char.ofNat 45]
    ++ hexRange u.bytes 10 16)

/-- Go `encoding/json` `appendString` with `escapeHTML` on (the default of an `Encoder`),
for one character of a valid UTF-8 string. -/
def escapeChar (c : Char) : List Char :=
  let n := c.toNat
  if n = 92 ∨ n = 34 then [Char.ofNat 92, c]
  else if n = 8 then [Char.ofNat 92, Char.ofNat 98]
  else if n = 12 then [Char.ofNat 92, Char.ofNat 102]
  else if n = 10 then [Char.ofNat 92, Char.ofNat 110]
  else if n = 13 then [Char.ofNat 92, Char.ofNat 114]
  else if n = 9 then [Char.ofNat 92, Char.ofNat 116]
  else if n < 32 ∨ n = 60 ∨ n = 62 ∨ n = 38 then
    [Char.ofNat 92, Char.ofNat 117, Char.ofNat 48, Char.ofNat 48, hexDigit (n / 16), hexDigit (n % 16)]
  else if n = 8232 then [Char.ofNat 92, Char.ofNat 117, Char.ofNat 50, Char.ofNat 48, Char.ofNat 50, Char.ofNat 56]
  else if n = 8233 then [Char.ofNat 92, Char.ofNat 117, Char.ofNat 50, Char.ofNat 48, Char.ofNat 50, Char.ofNat 57]
  else [c]

/-- JSON encoding of a Go string: the escaped characters between double quotes. -/
def marshalString (s : String) : String :=
  String.mk ([Char.ofNat 34] ++ s.data.flatMap escapeChar ++ [Char.ofNat 34])

/-- Concatenation of strings with a separator between consecutive ones. -/
def joinWith (sep : String) : List String → String
  | [] => ""
  | [x] => x
  | x :: y :: rest => x ++ sep ++ joinWith sep (y :: rest)

/-- Go `json.Marshal` of a `Book`: the fields in declaration order under their
`json` tags; `uuid.UUID` is a `TextMarshaler`, so the id is the string form. -/
def marshalBook (b : Book) : String :=
  "\x7b\"id\":" ++ marshalString b.ID.String
    ++ ",\"isbn\":" ++ marshalString b.ISBN
    ++ ",\"name\":" ++ marshalString b.Name
    ++ ",\"author\":" ++ marshalString b.Author
    ++ ",\"year\":" ++ marshalString b.Year
    ++ ",\"publisher\":" ++ marshalString b.Publisher ++ "\x7d"

/-- Go `json.Marshal` of a `[]Book`: `null` for the nil slice, otherwise the
elements between brackets, separated by commas. -/
def marshalBooks (s : Slice Book) : String :=
  match s with
  | none => "null"
  | some l => "[" ++ joinWith "," (l.map marshalBook) ++ "]"

/-- Go `json.Marshal` of a `map[string]interface{}` whose values are strings,
given as its key/value pairs: the keys are written in sorted order. -/
def marshalMap (m : List (String × String)) : String :=
  "\x7b" ++ joinWith ","
      ((m.insertionSort (fun a b => a.1 < b.1 ∨ a.1 = b.1)).map
        (fun kv => marshalString kv.1 ++ ":" ++ marshalString kv.2)) ++ "\x7d"

/-! ## net/http: header, response writer, `http.Error` -/

/-- Go `http.Header`, a map from canonical header names to their values. Every
name used by the handlers is already in canonical form. -/
abbrev Header := List (String × List String)

/-- Go `Header.Del`. -/
def Header.Del (h : Header) (key : String) : Header :=
  h.filter (fun kv => kv.1 ≠ key)

/-- Go `Header.Set`: the key is mapped to the single value, replacing what was there. -/
def Header.Set (h : Header) (key value : String) : Header :=
  (key, [value]) :: h.Del key

/-- Go `Header.Get`: the first value of the key, the empty string when there is none. -/
def Header.Get (h : Header) (key : String) : String :=
  match h.lookup key with
  | some (v :: _) => v
  | _ => ""

/-- State of a `http.ResponseWriter` of the standard server.

* `handlerHeader` is the map returned by `w.Header()`;
* `wroteHeader`, `status`, `header` record the status line and the header that
  were committed by the first `WriteHeader` (explicit, or implied by `Write`);
* `body` is what has been written to the body;
* `conn` gives the outcome of the coming writes, in order: `none` for a write
  that is accepted, `some e` for a write that fails with error `e`; writes
  beyond the list are accepted. -/
structure ResponseWriter where
  handlerHeader : Header
  wroteHeader : Bool
  status : Nat
  header : Header
  body : String
  conn : List (Option String)

/-- Writer handed to a handler: nothing is committed yet; `h` holds the header
fields set by the middleware in front of the handler. -/
def newWriter (h : Header) (conn : List (Option String)) : ResponseWriter :=
  ⟨h, false, 0, [], "", conn⟩

/-- Go `w.Header().Set(key, value)`. -/
def ResponseWriter.setHeader (w : ResponseWriter) (key value : String) : ResponseWriter :=
  { w with handlerHeader := w.handlerHeader.Set key value }

/-- Go `ResponseWriter.WriteHeader`: the first call commits the status code and
the header map as it is at that moment; a later call changes nothing. -/
def ResponseWriter.WriteHeader (w : ResponseWriter) (code : Nat) : ResponseWriter :=
  if w.wroteHeader then w
  else { w with wroteHeader := true, status := code, header := w.handlerHeader }

/-- Outcome of the next write on the connection: `none` when it is accepted,
the error when it fails. -/
def nextOutcome : List (Option String) → Option String
  | [] => none
  | o :: _ => o

/-- Go `ResponseWriter.Write`: commits status 200 when no header was written
yet, then appends the data to the body, or fails and returns the error. -/
def ResponseWriter.Write (w : ResponseWriter) (data : String) : ResponseWriter × Option String :=
  let w1 := if w.wroteHeader then w else w.WriteHeader 200
  match nextOutcome w1.conn with
  | none => ({ w1 with body := w1.body ++ data, conn := w1.conn.tail }, none)
  | some e => ({ w1 with conn := w1.conn.tail }, some e)

/-- Go `http.Error(w, error, code)`: drops `Content-Length`, sets a plain-text
content type and `nosniff`, writes the status code, then the message and a
newline (`fmt.Fprintln`, whose error is dropped). -/
def httpError (w : ResponseWriter) (error : String) (code : Nat) : ResponseWriter :=
  let h := ((w.handlerHeader.Del "Content-Length").Set "Content-Type" "text/plain; charset=utf-8").Set
    "X-Content-Type-Options" "nosniff"
  let w1 := ({ w with handlerHeader := h } : ResponseWriter).WriteHeader code
  (w1.Write (error ++ "\n")).1

/-- Go `json.NewEncoder(w).Encode(v)` for a value of one of the three types the
handlers encode, whose marshalling cannot fail: the JSON text of the value
followed by a newline goes to the writer in a single `Write`, whose error is returned. -/
def Encode (w : ResponseWriter) (json : String) : ResponseWriter × Option String :=
  w.Write (json ++ "\n")

/-- Response as the client receives it. -/
structure Response where
  status : Nat
  header : Header
  body : String
deriving DecidableEq

/-- Response held by a writer once its handler has returned: a handler that never
wrote anything gets status 200 and its header map from the server. -/
def ResponseWriter.response (w : ResponseWriter) : Response :=
  if w.wroteHeader then ⟨w.status, w.header, w.body⟩ else ⟨200, w.handlerHeader, w.body⟩

/-! ## The world around a handler -/

/-- Go `*http.Request`, the parts a handler or the logging middleware can read. -/
structure Request where
  Method : String
  Path : String
  Header : Header
  Body : String

/-- One SQL statement sent to the database: its text and its parameters. -/
structure Stmt where
  query : String
  args : List String
deriving DecidableEq

/-- One row of the result of the `SELECT` of `getBooks`: the six columns in the
order of the select list, and the error of `rows.Scan` on this row, if any. -/
structure Row where
  id : UUID
  isbn : String
  name : String
  author : String
  year : String
  publisher : String
  scanErr : Option String
deriving DecidableEq

/-- Go `*sql.Rows` returned by a successful `db.Query`: the rows that the calls of
`rows.Next()` yield, in order; the terminal error `rows.Err()` (`none` when the
iteration ended because the rows were exhausted); the error of `rows.Close()`. -/
structure Rows where
  rows : List Row
  err : Option String
  closeErr : Option String

/-- What the handlers get from outside the process.

* `decode body` is the outcome of `json.NewDecoder(r.Body).Decode(&book)` on a
  zero-valued `book`: the book afterwards, and the error if decoding failed;
* `queryRow stmt` is the outcome of `db.QueryRow(stmt...).Scan(&id)`;
* `query stmt` is the outcome of `db.Query(stmt...)`. -/
structure Env where
  decode : String → Book × Option String
  queryRow : Stmt → Except String UUID
  query : Stmt → Except String Rows

/-- State threaded through a handler: the response writer, the statements sent to
the database so far, and the lines written to the server log. -/
structure State where
  w : ResponseWriter
  executed : List Stmt
  log : List String

/-- State in which a handler starts. -/
def State.init (h : Header) (conn : List (Option String)) : State :=
  ⟨newWriter h conn, [], []⟩

/-- Go `log.Println` and `log.Printf`: one more line in the server log. -/
def State.logLine (s : State) (line : String) : State :=
  { s with log := s.log ++ [line] }

/-- Go `http.Error` on the writer of the state. -/
def State.httpError (s : State) (error : String) (code : Nat) : State :=
  { s with w := Bookstore.httpError s.w error code }

/-! ## The handlers of `main.go` -/

/-- Go `check`, `main.go` lines 59-69. -/
def check (_r : Request) (s : State) : State :=
  let response : List (String × String) := [("message", "OK")]
  let w := s.w.setHeader "Content-Type" "application/json"
  let res := Encode w (marshalMap response)
  match res.2 with
  | some err =>
    ({ s with w := res.1 }.logLine ("service is not responding " ++ err)).httpError
      "internal server error" 500
  | none => { s with w := res.1 }

/-- Text of the statement of `createBook`. -/
def insertQuery : String :=
  "INSERT INTO books (isbn, name, author, year, publisher) VALUES ($1, $2, $3, $4, $5) RETURNING id"

/-- Statement that `createBook` sends for a book: the five fields other than the id. -/
def insertStmt (book : Book) : Stmt :=
  ⟨insertQuery, [book.ISBN, book.Name, book.Author, book.Year, book.Publisher]⟩

/-- Go `createBook`, `main.go` lines 71-92. After a decoding error the handler
reports it and goes on: there is no `return` in the first `if`. -/
def createBook (env : Env) (r : Request) (s : State) : State :=
  let dec := env.decode r.Body
  let book := dec.1
  let s1 := match dec.2 with
    | some err => (s.logLine ("error decoding book json " ++ err)).httpError
        "invalid request payload" 400
    | none => s
  let s2 := { s1 with executed := s1.executed ++ [insertStmt book] }
  match env.queryRow (insertStmt book) with
  | .error err =>
    (s2.logLine ("error creating book: " ++ err)).httpError "internal server error" 500
  | .ok id =>
    let book1 := { book with ID := id }
    let w := s2.w.setHeader "Content-Type" "application/json"
    let res := Encode w (marshalBook book1)
    match res.2 with
    | some err =>
      ({ s2 with w := res.1 }.logLine ("error encoding response: " ++ err)).httpError
        "failed to encode response" 500
    | none => { s2 with w := res.1 }

/-- Statement of `getBooks`. -/
def selectStmt : Stmt :=
  ⟨"SELECT id, isbn, name, author, YEAR, publisher FROM books", []⟩

/-- Go `rows.Scan(&book.ID, &book.ISBN, &book.Name, &book.Author, &book.Year,
&book.Publisher)`: the columns go to the destinations by position. -/
def rowsScan (row : Row) (book : Book) : Book × Option String :=
  match row.scanErr with
  | some err => (book, some err)
  | none => (⟨row.id, row.isbn, row.name, row.author, row.year, row.publisher⟩, none)

/-- The `for rows.Next()` loop of `getBooks`, lines 108-116, over the rows that the
iterator yields: `Sum.inl` is the state in which the handler returns from inside
the loop, `Sum.inr` the slice with which the loop ends. -/
def scanLoop (s : State) : List Row → Slice Book → State ⊕ Slice Book
  | [], books => Sum.inr books
  | row :: rest, books =>
    let res := rowsScan row Book.zero
    match res.2 with
    | some err =>
      Sum.inl ((s.logLine ("error getting books " ++ err)).httpError "internal server error" 500)
    | none => scanLoop s rest (books.append res.1)

/-- Go `getBooks`, `main.go` lines 94-123. The terminal error of the iterator is
never read; the deferred function closes the rows on every path after the query. -/
def getBooks (env : Env) (_r : Request) (s : State) : State :=
  let s1 := { s with executed := s.executed ++ [selectStmt] }
  match env.query selectStmt with
  | .error err =>
    (s1.logLine ("error getting books " ++ err)).httpError "internal server error" 500
  | .ok rows =>
    let s2 := match scanLoop s1 rows.rows none with
      | Sum.inl s => s
      | Sum.inr books =>
        let w := s1.w.setHeader "Content-Type" "application/json"
        let res := Encode w (marshalBooks books)
        match res.2 with
        | some _ =>
          ({ s1 with w := res.1 }.logLine "error enconding books").httpError
            "failed to encode response" 500
        | none => { s1 with w := res.1 }
    match rows.closeErr with
    | some err => s2.logLine ("error closing rows " ++ err)
    | none => s2

/-- Go `logger`, `main.go` lines 52-57: logs method and path, then runs the handler. -/
def logger (next : Request → State → State) (r : Request) (s : State) : State :=
  next r (s.logLine (r.Method ++ " " ++ r.Path))

/-- Header committed by `http.Error` when nothing was committed before. -/
def errorHeader (h : Header) : Header :=
  ((h.Del "Content-Length").Set "Content-Type" "text/plain; charset=utf-8").Set
    "X-Content-Type-Options" "nosniff"

/-! ## Auxiliary definitions for the statements -/

/-- Slice obtained by appending the elements of a list one after the other. -/
def Slice.appendAll {T : Type} (s : Slice T) (xs : List T) : Slice T :=
  xs.foldl Slice.append s

/-- Book that `rows.Scan` fills from a row: column by column. -/
def Row.book (row : Row) : Book :=
  ⟨row.id, row.isbn, row.name, row.author, row.year, row.publisher⟩

/-! ## Sample inputs -/

/-- A sample identifier, `6ba7b810-9dad-11d1-80b4-00c04fd430c8`. -/
def sampleId : UUID :=
  ⟨[0x6b, 0xa7, 0xb8, 0x10, 0x9d, 0xad, 0x11, 0xd1, 0x80, 0xb4, 0x00, 0xc0, 0x4f, 0xd4, 0x30, 0xc8],
    by decide⟩

/-- A second sample identifier, `00000000-0000-4000-8000-000000000001`. -/
def otherId : UUID :=
  ⟨[0, 0, 0, 0, 0, 0, 0x40, 0, 0x80, 0, 0, 0, 0, 0, 0, 1], by decide⟩

/-- The book that `sampleBody` decodes to: the body carries no id. -/
def sampleBook : Book :=
  ⟨UUID.Nil, "9780131103627", "The C Programming Language", "Kernighan and Ritchie", "1988",
    "Prentice Hall"⟩

/-- A well-formed request body. -/
def sampleBody : String :=
  "\x7b\"isbn\":\"9780131103627\",\"name\":\"The C Programming Language\",\"author\":\"Kernighan and Ritchie\",\"year\":\"1988\",\"publisher\":\"Prentice Hall\"\x7d"

/-- The body `sampleBody` with a client-chosen id in front. -/
def sampleBodyWithId : String :=
  "\x7b\"id\":\"00000000-0000-4000-8000-000000000001\",\"isbn\":\"9780131103627\",\"name\":\"The C Programming Language\",\"author\":\"Kernighan and Ritchie\",\"year\":\"1988\",\"publisher\":\"Prentice Hall\"\x7d"

/-- A request body that is cut off in the middle of the JSON object. -/
def truncatedBody : String := "\x7b\"isbn\":\"97801311"

/-- What `json.Decoder.Decode` does on the three sample bodies: the two well-formed
ones decode; on the truncated one, and on any other body of this table, it
fails with `io.ErrUnexpectedEOF` and leaves the book untouched. -/
def sampleDecode (body : String) : Book × Option String :=
  if body = sampleBody then (sampleBook, none)
  else if body = sampleBodyWithId then ({ sampleBook with ID := otherId }, none)
  else (Book.zero, some "unexpected EOF")

/-- An environment with the sample decoder and fixed answers of the database. -/
def sampleEnv (insert : Except String UUID) (select : Except String Rows) : Env :=
  ⟨sampleDecode, fun _ => insert, fun _ => select⟩

/-- A `POST /api/books` request with the given body. -/
def postBooks (body : String) : Request := ⟨"POST", "/api/books", [], body⟩

/-- A `GET` request for a path. -/
def getRequest (path : String) : Request := ⟨"GET", path, [], ""⟩

/-- Two rows of the `books` table. -/
def sampleRows : List Row :=
  [⟨sampleId, "9780131103627", "The C Programming Language", "Kernighan and Ritchie", "1988",
      "Prentice Hall", none⟩,
   ⟨otherId, "9780262510875", "Structure and Interpretation of Computer Programs",
      "Abelson and Sussman", "1996", "MIT Press", none⟩]

/-- A row on which `rows.Scan` fails: its `isbn` column is NULL. -/
def nullRow : Row :=
  ⟨otherId, "", "", "", "", "",
    some "sql: Scan error on column index 1, name \"isbn\": converting NULL to string is unsupported"⟩

/-! ## Header and writer lemmas -/

theorem Header.get_set (h : Header) (key value : String) :
    (h.Set key value).Get key = value := by
  simp [Header.Set, Header.Get, List.lookup]

theorem get_errorHeader (h : Header) :
    (errorHeader h).Get "Content-Type" = "text/plain; charset=utf-8" := by
  simp [errorHeader, Header.Set, Header.Get, Header.Del, List.lookup, List.filter]

section Writer

variable (w : ResponseWriter) (data : String) (code : Nat)

@[simp] theorem write_wroteHeader : (w.Write data).1.wroteHeader = true := by
  unfold ResponseWriter.Write ResponseWriter.WriteHeader
  cases hw : w.wroteHeader <;> simp <;> split <;> simp [hw]

@[simp] theorem write_status :
    (w.Write data).1.status = if w.wroteHeader then w.status else 200 := by
  unfold ResponseWriter.Write ResponseWriter.WriteHeader
  cases hw : w.wroteHeader <;> simp <;> split <;> simp

@[simp] theorem write_header :
    (w.Write data).1.header = if w.wroteHeader then w.header else w.handlerHeader := by
  unfold ResponseWriter.Write ResponseWriter.WriteHeader
  cases hw : w.wroteHeader <;> simp <;> split <;> simp

@[simp] theorem write_handlerHeader : (w.Write data).1.handlerHeader = w.handlerHeader := by
  unfold ResponseWriter.Write ResponseWriter.WriteHeader
  cases hw : w.wroteHeader <;> simp <;> split <;> simp

@[simp] theorem write_conn : (w.Write data).1.conn = w.conn.tail := by
  unfold ResponseWriter.Write ResponseWriter.WriteHeader
  cases hw : w.wroteHeader <;> simp <;> split <;> simp

@[simp] theorem write_err : (w.Write data).2 = nextOutcome w.conn := by
  unfold ResponseWriter.Write ResponseWriter.WriteHeader
  cases hw : w.wroteHeader <;> simp <;> split <;> simp [*]

@[simp] theorem write_body :
    (w.Write data).1.body = if nextOutcome w.conn = none then w.body ++ data else w.body := by
  unfold ResponseWriter.Write ResponseWriter.WriteHeader
  cases hw : w.wroteHeader <;> simp <;> split <;> simp [*]

@[simp] theorem httpError_wroteHeader : (httpError w data code).wroteHeader = true := by
  simp [httpError]

@[simp] theorem httpError_status :
    (httpError w data code).status = if w.wroteHeader then w.status else code := by
  simp [httpError, ResponseWriter.WriteHeader]
  cases hw : w.wroteHeader <;> simp

@[simp] theorem httpError_header :
    (httpError w data code).header =
      if w.wroteHeader then w.header else errorHeader w.handlerHeader := by
  simp [httpError, ResponseWriter.WriteHeader, errorHeader]
  cases hw : w.wroteHeader <;> simp

@[simp] theorem httpError_handlerHeader :
    (httpError w data code).handlerHeader = errorHeader w.handlerHeader := by
  simp [httpError, ResponseWriter.WriteHeader, errorHeader]
  cases hw : w.wroteHeader <;> simp

@[simp] theorem httpError_conn : (httpError w data code).conn = w.conn.tail := by
  simp [httpError, ResponseWriter.WriteHeader]
  cases hw : w.wroteHeader <;> simp

@[simp] theorem httpError_body :
    (httpError w data code).body =
      if nextOutcome w.conn = none then w.body ++ (data ++ "\n") else w.body := by
  simp [httpError, ResponseWriter.WriteHeader]
  cases hw : w.wroteHeader <;> simp

end Writer

/-! ## The paths of `check` -/

section Check

variable (r : Request) (h : Header) (conn : List (Option String))

theorem check_executed : (check r (State.init h conn)).executed = [] := by
  simp only [check, Encode, write_err]
  cases hc : nextOutcome (((State.init h conn).w.setHeader "Content-Type" "application/json")).conn <;>
    simp [State.httpError, State.logLine, State.init]

theorem check_status : (check r (State.init h conn)).w.response.status = 200 := by
  simp only [check, Encode, write_err]
  cases hc : nextOutcome (((State.init h conn).w.setHeader "Content-Type" "application/json")).conn <;>
    simp [ResponseWriter.response, State.httpError, State.logLine, State.init, newWriter,
      ResponseWriter.setHeader]

theorem check_header :
    (check r (State.init h conn)).w.response.header = h.Set "Content-Type" "application/json" := by
  simp only [check, Encode, write_err]
  cases hc : nextOutcome (((State.init h conn).w.setHeader "Content-Type" "application/json")).conn <;>
    simp [ResponseWriter.response, State.httpError, State.logLine, State.init, newWriter,
      ResponseWriter.setHeader]

theorem check_body (hw : nextOutcome conn = none) :
    (check r (State.init h conn)).w.response.body = "\x7b\"message\":\"OK\"\x7d\n" := by
  have hm : marshalMap [("message", "OK")] = "\x7b\"message\":\"OK\"\x7d" := by decide
  simp [check, Encode, ResponseWriter.response, State.init, newWriter,
    ResponseWriter.setHeader, hw, hm]

end Check

/-! ## The paths of `createBook` -/

section CreateBook

variable (env : Env) (r : Request) (h : Header) (conn : List (Option String))

theorem createBook_executed :
    (createBook env r (State.init h conn)).executed = [insertStmt (env.decode r.Body).1] := by
  rcases hd : env.decode r.Body with ⟨b, _ | e⟩ <;>
    rcases hq : env.queryRow (insertStmt b) with e2 | i <;>
    simp only [createBook, hd, hq, Encode, write_err] <;>
    (try split) <;>
    simp [State.httpError, State.logLine, State.init]

/-- Successful decode, successful insert. -/
theorem createBook_ok_status (b : Book) (i : UUID) (hd : env.decode r.Body = (b, none))
    (hq : env.queryRow (insertStmt b) = .ok i) :
    (createBook env r (State.init h conn)).w.response.status = 200 ∧
    (createBook env r (State.init h conn)).w.response.header =
      h.Set "Content-Type" "application/json" := by
  simp only [createBook, hd, hq, Encode, write_err]
  split <;>
    simp [ResponseWriter.response, State.httpError, State.logLine, State.init, newWriter,
      ResponseWriter.setHeader]

theorem createBook_ok_body (b : Book) (i : UUID) (hd : env.decode r.Body = (b, none))
    (hq : env.queryRow (insertStmt b) = .ok i) (hw : nextOutcome conn = none) :
    (createBook env r (State.init h conn)).w.response.body =
      marshalBook ⟨i, b.ISBN, b.Name, b.Author, b.Year, b.Publisher⟩ ++ "\n" := by
  simp [createBook, hd, hq, Encode, ResponseWriter.response, State.init, newWriter,
    ResponseWriter.setHeader, hw]

/-- Successful decode, failed insert. -/
theorem createBook_insert_error (b : Book) (e : String) (hd : env.decode r.Body = (b, none))
    (hq : env.queryRow (insertStmt b) = .error e) :
    (createBook env r (State.init h conn)).w.response =
      ⟨500, errorHeader h, if nextOutcome conn = none then "internal server error\n" else ""⟩ := by
  simp [createBook, hd, hq, ResponseWriter.response, State.httpError, State.logLine, State.init,
    newWriter]

/-- Failed decode: the status and the header are those of the first `http.Error`. -/
theorem createBook_decode_error_status (b : Book) (e : String)
    (hd : env.decode r.Body = (b, some e)) :
    (createBook env r (State.init h conn)).w.response.status = 400 ∧
    (createBook env r (State.init h conn)).w.response.header = errorHeader h := by
  rcases hq : env.queryRow (insertStmt b) with e2 | i <;>
    simp only [createBook, hd, hq, Encode, write_err] <;>
    (try split) <;>
    simp [ResponseWriter.response, State.httpError, State.logLine, State.init, newWriter,
      ResponseWriter.setHeader]

theorem createBook_decode_error_body_insert_error (b : Book) (e e2 : String)
    (hd : env.decode r.Body = (b, some e)) (hq : env.queryRow (insertStmt b) = .error e2)
    (hw : nextOutcome conn = none) (hw2 : nextOutcome conn.tail = none) :
    (createBook env r (State.init h conn)).w.response.body =
      "invalid request payload\n" ++ "internal server error\n" := by
  simp [createBook, hd, hq, ResponseWriter.response, State.httpError, State.logLine, State.init,
    newWriter, hw, hw2]

theorem createBook_decode_error_body_insert_ok (b : Book) (e : String) (i : UUID)
    (hd : env.decode r.Body = (b, some e)) (hq : env.queryRow (insertStmt b) = .ok i)
    (hw : nextOutcome conn = none) (hw2 : nextOutcome conn.tail = none) :
    (createBook env r (State.init h conn)).w.response.body =
      "invalid request payload\n" ++
        (marshalBook ⟨i, b.ISBN, b.Name, b.Author, b.Year, b.Publisher⟩ ++ "\n") := by
  simp [createBook, hd, hq, Encode, ResponseWriter.response, State.httpError, State.logLine,
    State.init, newWriter, ResponseWriter.setHeader, hw, hw2]

end CreateBook

/-! ## The paths of `getBooks` -/

theorem Slice.appendAll_some {T : Type} (l xs : List T) :
    Slice.appendAll (some l) xs = some (l ++ xs) := by
  induction xs generalizing l with
  | nil => simp [Slice.appendAll]
  | cons x xs ih =>
    have := ih (l ++ [x])
    simp only [Slice.appendAll, List.foldl_cons, Slice.append] at this ⊢
    simpa using this

theorem Slice.appendAll_nil_cons {T : Type} (x : T) (xs : List T) :
    Slice.appendAll none (x :: xs) = some (x :: xs) := by
  have := Slice.appendAll_some [x] xs
  simpa [Slice.appendAll, Slice.append] using this

theorem scanLoop_all_ok (s : State) (rows : List Row) (acc : Slice Book)
    (hall : ∀ row ∈ rows, row.scanErr = none) :
    scanLoop s rows acc = Sum.inr (acc.appendAll (rows.map Row.book)) := by
  induction rows generalizing acc with
  | nil => rfl
  | cons row rest ih =>
    have hrow : row.scanErr = none := hall row (List.mem_cons_self _ _)
    have hrest : ∀ x ∈ rest, x.scanErr = none := fun x hx => hall x (List.mem_cons_of_mem _ hx)
    simp only [scanLoop, rowsScan, hrow]
    rw [ih _ hrest]
    simp [Slice.appendAll, Row.book]

theorem scanLoop_some_error (s : State) (rows : List Row) (acc : Slice Book)
    (hex : ∃ row ∈ rows, row.scanErr ≠ none) :
    ∃ e, scanLoop s rows acc =
      Sum.inl ((s.logLine ("error getting books " ++ e)).httpError "internal server error" 500) := by
  induction rows generalizing acc with
  | nil => simp at hex
  | cons row rest ih =>
    cases hrow : row.scanErr with
    | some e => exact ⟨e, by simp [scanLoop, rowsScan, hrow]⟩
    | none =>
      have hrest : ∃ x ∈ rest, x.scanErr ≠ none := by
        obtain ⟨x, hx, hne⟩ := hex
        rcases List.mem_cons.mp hx with rfl | hx
        · exact absurd hrow hne
        · exact ⟨x, hx, hne⟩
      obtain ⟨e, he⟩ := ih (acc.append row.book) hrest
      exact ⟨e, by simpa [scanLoop, rowsScan, hrow, Row.book] using he⟩

theorem marshalBooks_rows (rows : List Row) (hne : rows ≠ []) :
    marshalBooks (Slice.appendAll none (rows.map Row.book)) =
      "[" ++ joinWith "," (rows.map (fun row =>
        marshalBook ⟨row.id, row.isbn, row.name, row.author, row.year, row.publisher⟩)) ++ "]" := by
  cases rows with
  | nil => exact absurd rfl hne
  | cons x xs =>
    rw [List.map_cons, Slice.appendAll_nil_cons]
    simp [marshalBooks, Row.book, Function.comp_def]

section GetBooks

variable (env : Env) (r : Request) (h : Header) (conn : List (Option String))

theorem getBooks_query_error (e : String) (hq : env.query selectStmt = .error e) :
    (getBooks env r (State.init h conn)).executed = [selectStmt] ∧
    (getBooks env r (State.init h conn)).w.response =
      ⟨500, errorHeader h, if nextOutcome conn = none then "internal server error\n" else ""⟩ := by
  simp [getBooks, hq, ResponseWriter.response, State.httpError, State.logLine, State.init,
    newWriter]

theorem getBooks_scan_error (rows : Rows) (hq : env.query selectStmt = .ok rows)
    (hex : ∃ row ∈ rows.rows, row.scanErr ≠ none) :
    (getBooks env r (State.init h conn)).executed = [selectStmt] ∧
    (getBooks env r (State.init h conn)).w.response =
      ⟨500, errorHeader h, if nextOutcome conn = none then "internal server error\n" else ""⟩ := by
  obtain ⟨e, he⟩ := scanLoop_some_error { (State.init h conn) with
    executed := (State.init h conn).executed ++ [selectStmt] } rows.rows none hex
  simp only [getBooks, hq, he]
  cases rows.closeErr <;>
    simp [ResponseWriter.response, State.httpError, State.logLine, State.init, newWriter]

theorem getBooks_all_ok (rows : Rows) (hq : env.query selectStmt = .ok rows)
    (hall : ∀ row ∈ rows.rows, row.scanErr = none) :
    (getBooks env r (State.init h conn)).executed = [selectStmt] ∧
    (getBooks env r (State.init h conn)).w.response.status = 200 ∧
    (getBooks env r (State.init h conn)).w.response.header =
      h.Set "Content-Type" "application/json" ∧
    (nextOutcome conn = none →
      (getBooks env r (State.init h conn)).w.response.body =
        marshalBooks (Slice.appendAll none (rows.rows.map Row.book)) ++ "\n") := by
  have hl := scanLoop_all_ok { (State.init h conn) with
    executed := (State.init h conn).executed ++ [selectStmt] } rows.rows none hall
  simp only [getBooks, hq, hl, Encode, write_err]
  cases hc : nextOutcome conn <;> cases rows.closeErr <;>
    simp [ResponseWriter.response, State.httpError, State.logLine, State.init, newWriter,
      ResponseWriter.setHeader, hc]

/-- The writer and the statements that `getBooks` leaves behind are determined by
the outcome of the query and the rows yielded: neither the terminal error of the
iterator nor the error of `rows.Close()` has a part in them. -/
theorem getBooks_terminal_error_unread (env1 env2 : Env) (items : List Row)
    (e1 e2 c1 c2 : Option String) (s : State)
    (h1 : env1.query selectStmt = .ok ⟨items, e1, c1⟩)
    (h2 : env2.query selectStmt = .ok ⟨items, e2, c2⟩) :
    (getBooks env1 r s).w = (getBooks env2 r s).w ∧
    (getBooks env1 r s).executed = (getBooks env2 r s).executed := by
  simp only [getBooks, h1, h2]
  cases c1 <;> cases c2 <;> simp [State.logLine]

end GetBooks

/-! ## The encoder on sample values -/

theorem marshalMap_message : marshalMap [("message", "OK")] = "\x7b\"message\":\"OK\"\x7d" := by
  decide

theorem marshalBooks_nil : marshalBooks none = "null" := by decide

theorem marshalBooks_empty : marshalBooks (some []) = "[]" := by decide

theorem marshalBook_zero : marshalBook Book.zero =
    "\x7b\"id\":\"00000000-0000-0000-0000-000000000000\",\"isbn\":\"\",\"name\":\"\",\"author\":\"\",\"year\":\"\",\"publisher\":\"\"\x7d" := by
  decide

theorem marshalString_escapes : marshalString "a\"b<\n" = "\"a\\\"b\\u003c\\n\"" := by decide

/-! ## The claims -/

/-- C1, the code at a failing input: for the request body that is cut off in the
middle of the JSON object, decoding fails, `createBook` answers 400 and still
sends the INSERT, with the five empty strings of the zero-valued book. -/
theorem createBook_decode_failure_still_inserts :
    sampleDecode truncatedBody = (Book.zero, some "unexpected EOF") ∧
    (createBook (sampleEnv (.ok sampleId) (.error "")) (postBooks truncatedBody)
      (State.init [] [])).w.response.status = 400 ∧
    (createBook (sampleEnv (.ok sampleId) (.error "")) (postBooks truncatedBody)
      (State.init [] [])).executed = [⟨insertQuery, ["", "", "", "", ""]⟩] := by
  decide

/-- C2: when the body decodes to `b` and the insert returns the identifier `i`,
`createBook` sends exactly one statement, the INSERT with the parameters
`b.ISBN, b.Name, b.Author, b.Year, b.Publisher` in that order, and answers with
status 200 and content type JSON; when the connection takes the write, the body
is the JSON encoding of the book with id `i` and the five other fields of `b`. -/
theorem createBook_success (env : Env) (r : Request) (h : Header) (conn : List (Option String))
    (b : Book) (i : UUID) (hd : env.decode r.Body = (b, none))
    (hq : env.queryRow ⟨insertQuery, [b.ISBN, b.Name, b.Author, b.Year, b.Publisher]⟩ = .ok i) :
    (createBook env r (State.init h conn)).executed =
      [⟨insertQuery, [b.ISBN, b.Name, b.Author, b.Year, b.Publisher]⟩] ∧
    (createBook env r (State.init h conn)).w.response.status = 200 ∧
    (createBook env r (State.init h conn)).w.response.header.Get "Content-Type" =
      "application/json" ∧
    (nextOutcome conn = none →
      (createBook env r (State.init h conn)).w.response.body =
        marshalBook ⟨i, b.ISBN, b.Name, b.Author, b.Year, b.Publisher⟩ ++ "\n") := by
  have hst := createBook_ok_status env r h conn b i hd hq
  refine ⟨?_, hst.1, ?_, fun hw => createBook_ok_body env r h conn b i hd hq hw⟩
  · rw [createBook_executed, hd]; rfl
  · rw [hst.2, Header.get_set]

set_option maxRecDepth 8000 in
/-- C2 at the sample body, with a database that returns `sampleId`. -/
theorem createBook_success_witness :
    (createBook (sampleEnv (.ok sampleId) (.error "")) (postBooks sampleBody)
        (State.init [] [])).executed =
      [⟨insertQuery, ["9780131103627", "The C Programming Language", "Kernighan and Ritchie",
        "1988", "Prentice Hall"]⟩] ∧
    (createBook (sampleEnv (.ok sampleId) (.error "")) (postBooks sampleBody)
        (State.init [] [])).w.response.status = 200 ∧
    (createBook (sampleEnv (.ok sampleId) (.error "")) (postBooks sampleBody)
        (State.init [] [])).w.response.body =
      "\x7b\"id\":\"6ba7b810-9dad-11d1-80b4-00c04fd430c8\",\"isbn\":\"9780131103627\",\"name\":\"The C Programming Language\",\"author\":\"Kernighan and Ritchie\",\"year\":\"1988\",\"publisher\":\"Prentice Hall\"\x7d\n" := by
  have key := createBook_success (sampleEnv (.ok sampleId) (.error "")) (postBooks sampleBody)
    [] [] sampleBook sampleId (by decide) rfl
  refine ⟨key.1, key.2.1, ?_⟩
  rw [key.2.2.2 (by decide)]
  decide

/-- C3, the code at a failing input: when the query succeeds and yields no row,
`getBooks` answers 200 with the body `null` (the encoding of the nil slice that
`var books []Book` declares), which is not the empty JSON array. -/
theorem getBooks_empty_table_null :
    (getBooks (sampleEnv (.error "") (.ok ⟨[], none, none⟩)) (getRequest "/api/books")
      (State.init [] [])).w.response =
      ⟨200, [("Content-Type", ["application/json"])], "null\n"⟩ ∧
    (getBooks (sampleEnv (.error "") (.ok ⟨[], none, none⟩)) (getRequest "/api/books")
      (State.init [] [])).w.response.body ≠ "[]\n" := by
  decide

/-- C4: when the INSERT fails after a successful decode, when the SELECT fails, and
when the scan of some row fails, the response is the same fixed one, whatever
the error of the database is: status 500 and the body `internal server error`
(nothing at all when the connection refuses the write); in `getBooks` nothing of
the books scanned before the failing row is in the body. -/
theorem persistence_failure_generic (env : Env) (r : Request) (h : Header)
    (conn : List (Option String)) :
    (∀ b e, env.decode r.Body = (b, none) → env.queryRow (insertStmt b) = .error e →
      (createBook env r (State.init h conn)).w.response =
        ⟨500, errorHeader h, if nextOutcome conn = none then "internal server error\n" else ""⟩) ∧
    (∀ e, env.query selectStmt = .error e →
      (getBooks env r (State.init h conn)).w.response =
        ⟨500, errorHeader h, if nextOutcome conn = none then "internal server error\n" else ""⟩) ∧
    (∀ rows, env.query selectStmt = .ok rows → (∃ row ∈ rows.rows, row.scanErr ≠ none) →
      (getBooks env r (State.init h conn)).w.response =
        ⟨500, errorHeader h, if nextOutcome conn = none then "internal server error\n" else ""⟩) :=
  ⟨fun b e hd hq => createBook_insert_error env r h conn b e hd hq,
   fun e hq => (getBooks_query_error env r h conn e hq).2,
   fun rows hq hex => (getBooks_scan_error env r h conn rows hq hex).2⟩

/-- C4 at three failures: a refused connection on insert, the same on select, and a
NULL column in the third row of the result. -/
theorem persistence_failure_generic_witness :
    (createBook (sampleEnv (.error "dial tcp 10.0.0.5:5432: connect: connection refused")
        (.error "")) (postBooks sampleBody) (State.init [] [])).w.response =
      ⟨500, errorHeader [], "internal server error\n"⟩ ∧
    (getBooks (sampleEnv (.error "") (.error "pq: relation \"books\" does not exist"))
        (getRequest "/api/books") (State.init [] [])).w.response =
      ⟨500, errorHeader [], "internal server error\n"⟩ ∧
    (getBooks (sampleEnv (.error "") (.ok ⟨sampleRows ++ [nullRow], none, none⟩))
        (getRequest "/api/books") (State.init [] [])).w.response =
      ⟨500, errorHeader [], "internal server error\n"⟩ :=
  ⟨(persistence_failure_generic
      (sampleEnv (.error "dial tcp 10.0.0.5:5432: connect: connection refused") (.error ""))
      (postBooks sampleBody) [] []).1 sampleBook _ (by decide) rfl,
   (persistence_failure_generic
      (sampleEnv (.error "") (.error "pq: relation \"books\" does not exist"))
      (getRequest "/api/books") [] []).2.1 _ rfl,
   (persistence_failure_generic
      (sampleEnv (.error "") (.ok ⟨sampleRows ++ [nullRow], none, none⟩))
      (getRequest "/api/books") [] []).2.2 _ rfl ⟨nullRow, by decide, by decide⟩⟩

/-- C5: when the query succeeds with a non-empty sequence of rows that all scan,
`getBooks` answers 200 with content type JSON; when the connection takes the
write, the body is the JSON array with one book per row, in the order of the
rows, the six fields of each book being the six columns of its row. -/
theorem getBooks_lists_rows (env : Env) (r : Request) (h : Header)
    (conn : List (Option String)) (rows : Rows)
    (hq : env.query selectStmt = .ok rows) (hne : rows.rows ≠ [])
    (hall : ∀ row ∈ rows.rows, row.scanErr = none) :
    (getBooks env r (State.init h conn)).w.response.status = 200 ∧
    (getBooks env r (State.init h conn)).w.response.header.Get "Content-Type" =
      "application/json" ∧
    (nextOutcome conn = none →
      (getBooks env r (State.init h conn)).w.response.body =
        "[" ++ joinWith "," (rows.rows.map (fun row =>
          marshalBook ⟨row.id, row.isbn, row.name, row.author, row.year, row.publisher⟩))
          ++ "]" ++ "\n") := by
  have key := getBooks_all_ok env r h conn rows hq hall
  refine ⟨key.2.1, ?_, fun hw => ?_⟩
  · rw [key.2.2.1, Header.get_set]
  · rw [key.2.2.2 hw, marshalBooks_rows rows.rows hne]

set_option maxRecDepth 8000 in
/-- C5 at the two sample rows. -/
theorem getBooks_lists_rows_witness :
    (getBooks (sampleEnv (.error "") (.ok ⟨sampleRows, none, none⟩)) (getRequest "/api/books")
      (State.init [] [])).w.response.status = 200 ∧
    (getBooks (sampleEnv (.error "") (.ok ⟨sampleRows, none, none⟩)) (getRequest "/api/books")
      (State.init [] [])).w.response.body =
      "[\x7b\"id\":\"6ba7b810-9dad-11d1-80b4-00c04fd430c8\",\"isbn\":\"9780131103627\",\"name\":\"The C Programming Language\",\"author\":\"Kernighan and Ritchie\",\"year\":\"1988\",\"publisher\":\"Prentice Hall\"\x7d,\x7b\"id\":\"00000000-0000-4000-8000-000000000001\",\"isbn\":\"9780262510875\",\"name\":\"Structure and Interpretation of Computer Programs\",\"author\":\"Abelson and Sussman\",\"year\":\"1996\",\"publisher\":\"MIT Press\"\x7d]\n" := by
  have key := getBooks_lists_rows (sampleEnv (.error "") (.ok ⟨sampleRows, none, none⟩))
    (getRequest "/api/books") [] [] ⟨sampleRows, none, none⟩ rfl (by decide) (by decide)
  refine ⟨key.1, ?_⟩
  rw [key.2.2 (by decide)]
  decide

/-- C6: the id of the request body is ignored. Two runs of `createBook` whose
bodies decode to books that agree on the five fields other than the id, and in
which the database gives the same answer to the INSERT, end in the same state:
the same statement with the same parameters, the same response, the same log.
When the insert returns `i` and the connection takes the write, the id in the
response body is `i`, whatever id the body carried. -/
theorem createBook_ignores_id (env1 env2 : Env) (r1 r2 : Request) (h : Header)
    (conn : List (Option String)) (b1 b2 : Book)
    (hd1 : env1.decode r1.Body = (b1, none)) (hd2 : env2.decode r2.Body = (b2, none))
    (hsame : b1.ISBN = b2.ISBN ∧ b1.Name = b2.Name ∧ b1.Author = b2.Author ∧
      b1.Year = b2.Year ∧ b1.Publisher = b2.Publisher)
    (hdb : env1.queryRow (insertStmt b1) = env2.queryRow (insertStmt b2)) :
    (createBook env1 r1 (State.init h conn)).executed =
      (createBook env2 r2 (State.init h conn)).executed ∧
    (createBook env1 r1 (State.init h conn)).executed = [insertStmt b1] ∧
    (createBook env1 r1 (State.init h conn)).w.response =
      (createBook env2 r2 (State.init h conn)).w.response ∧
    (createBook env1 r1 (State.init h conn)).log =
      (createBook env2 r2 (State.init h conn)).log ∧
    (∀ i, env1.queryRow (insertStmt b1) = .ok i → nextOutcome conn = none →
      (createBook env1 r1 (State.init h conn)).w.response.body =
        marshalBook ⟨i, b1.ISBN, b1.Name, b1.Author, b1.Year, b1.Publisher⟩ ++ "\n" ∧
      (createBook env2 r2 (State.init h conn)).w.response.body =
        marshalBook ⟨i, b1.ISBN, b1.Name, b1.Author, b1.Year, b1.Publisher⟩ ++ "\n") := by
  obtain ⟨h1, h2, h3, h4, h5⟩ := hsame
  have hstmt : insertStmt b1 = insertStmt b2 := by simp [insertStmt, h1, h2, h3, h4, h5]
  have hdb2 : env1.queryRow (insertStmt b2) = env2.queryRow (insertStmt b2) := hstmt ▸ hdb
  have heq : createBook env1 r1 (State.init h conn) = createBook env2 r2 (State.init h conn) := by
    simp only [createBook, hd1, hd2, hstmt, hdb2, h1, h2, h3, h4, h5]
  refine ⟨by rw [heq], ?_, by rw [heq], by rw [heq], fun i hq hw => ?_⟩
  · rw [createBook_executed, hd1]
  · have hb := createBook_ok_body env1 r1 h conn b1 i hd1 hq hw
    exact ⟨hb, heq ▸ hb⟩

/-- C6 at the sample body without and with a client-chosen id. -/
theorem createBook_ignores_id_witness :
    (createBook (sampleEnv (.ok sampleId) (.error "")) (postBooks sampleBody)
        (State.init [] [])).w.response =
      (createBook (sampleEnv (.ok sampleId) (.error "")) (postBooks sampleBodyWithId)
        (State.init [] [])).w.response ∧
    (createBook (sampleEnv (.ok sampleId) (.error "")) (postBooks sampleBodyWithId)
        (State.init [] [])).w.response.body =
      marshalBook ⟨sampleId, "9780131103627", "The C Programming Language",
        "Kernighan and Ritchie", "1988", "Prentice Hall"⟩ ++ "\n" := by
  have key := createBook_ignores_id (sampleEnv (.ok sampleId) (.error ""))
    (sampleEnv (.ok sampleId) (.error "")) (postBooks sampleBody) (postBooks sampleBodyWithId)
    [] [] sampleBook { sampleBook with ID := otherId } (by decide) (by decide)
    ⟨rfl, rfl, rfl, rfl, rfl⟩ rfl
  exact ⟨key.2.2.1, (key.2.2.2.2 sampleId rfl rfl).2⟩

/-- C7: `check` does not read its request: for every request it sends nothing to
the database and answers with status 200 and content type `application/json`;
when the connection takes the write, the body is the JSON object with the
single key `message` and the value `OK`, followed by a newline. -/
theorem check_fixed_response (r : Request) (h : Header) (conn : List (Option String)) :
    (∀ r2 s, check r s = check r2 s) ∧
    (check r (State.init h conn)).executed = [] ∧
    (check r (State.init h conn)).w.response.status = 200 ∧
    (check r (State.init h conn)).w.response.header.Get "Content-Type" = "application/json" ∧
    (nextOutcome conn = none →
      (check r (State.init h conn)).w.response.body = "\x7b\"message\":\"OK\"\x7d\n") := by
  refine ⟨fun _ _ => rfl, check_executed r h conn, check_status r h conn, ?_,
    fun hw => check_body r h conn hw⟩
  rw [check_header, Header.get_set]

/-- C7 at a `GET /api` request on a connection that takes every write. -/
theorem check_fixed_response_witness :
    (check (getRequest "/api") (State.init [] [])).w.response =
      ⟨200, [("Content-Type", ["application/json"])], "\x7b\"message\":\"OK\"\x7d\n"⟩ := by
  have key := check_fixed_response (getRequest "/api") [] []
  have hb := key.2.2.2.2 rfl
  have hs := key.2.2.1
  have hh : (check (getRequest "/api") (State.init [] [])).w.response.header =
      [("Content-Type", ["application/json"])] := by decide
  cases hr : (check (getRequest "/api") (State.init [] [])).w.response with
  | mk st hd bd =>
    rw [hr] at hb hs hh
    simp only at hb hs hh
    rw [hb, hs, hh]

/-- C8, counterexample: when the INSERT fails, the response of `createBook` has a
body, and its content type is `text/plain; charset=utf-8`, not JSON. -/
theorem content_type_json_counterexample :
    (createBook (sampleEnv (.error "pq: value too long for type character varying(13)")
        (.error "")) (postBooks sampleBody) (State.init [] [])).w.response.status = 500 ∧
    (createBook (sampleEnv (.error "pq: value too long for type character varying(13)")
        (.error "")) (postBooks sampleBody) (State.init [] [])).w.response.body =
      "internal server error\n" ∧
    (createBook (sampleEnv (.error "pq: value too long for type character varying(13)")
        (.error "")) (postBooks sampleBody) (State.init [] [])).w.response.header.Get
      "Content-Type" = "text/plain; charset=utf-8" ∧
    (createBook (sampleEnv (.error "pq: value too long for type character varying(13)")
        (.error "")) (postBooks sampleBody) (State.init [] [])).w.response.header.Get
      "Content-Type" ≠ "application/json" := by
  decide

/-- C8, amended: the content type of a response is decided by the first thing
written. It is `application/json` for every response of `check`, and for the
responses of `createBook` and `getBooks` when decoding and the database succeed
(also when the write of the encoded value then fails); it is
`text/plain; charset=utf-8` for the responses that `http.Error` starts: after a
decoding failure (400) and after a failure of the INSERT, of the SELECT or of
a row scan (500). -/
theorem content_type_by_path (env : Env) (r : Request) (h : Header)
    (conn : List (Option String)) :
    (check r (State.init h conn)).w.response.header.Get "Content-Type" = "application/json" ∧
    (∀ b i, env.decode r.Body = (b, none) → env.queryRow (insertStmt b) = .ok i →
      (createBook env r (State.init h conn)).w.response.header.Get "Content-Type" =
        "application/json") ∧
    (∀ rows, env.query selectStmt = .ok rows → (∀ row ∈ rows.rows, row.scanErr = none) →
      (getBooks env r (State.init h conn)).w.response.header.Get "Content-Type" =
        "application/json") ∧
    (∀ b e, env.decode r.Body = (b, some e) →
      (createBook env r (State.init h conn)).w.response.header.Get "Content-Type" =
        "text/plain; charset=utf-8") ∧
    (∀ b e, env.decode r.Body = (b, none) → env.queryRow (insertStmt b) = .error e →
      (createBook env r (State.init h conn)).w.response.header.Get "Content-Type" =
        "text/plain; charset=utf-8") ∧
    (∀ e, env.query selectStmt = .error e →
      (getBooks env r (State.init h conn)).w.response.header.Get "Content-Type" =
        "text/plain; charset=utf-8") ∧
    (∀ rows, env.query selectStmt = .ok rows → (∃ row ∈ rows.rows, row.scanErr ≠ none) →
      (getBooks env r (State.init h conn)).w.response.header.Get "Content-Type" =
        "text/plain; charset=utf-8") := by
  refine ⟨?_, fun b i hd hq => ?_, fun rows hq hall => ?_, fun b e hd => ?_,
    fun b e hd hq => ?_, fun e hq => ?_, fun rows hq hex => ?_⟩
  · rw [check_header, Header.get_set]
  · rw [(createBook_ok_status env r h conn b i hd hq).2, Header.get_set]
  · rw [(getBooks_all_ok env r h conn rows hq hall).2.2.1, Header.get_set]
  · rw [(createBook_decode_error_status env r h conn b e hd).2, get_errorHeader]
  · rw [createBook_insert_error env r h conn b e hd hq]; exact get_errorHeader h
  · rw [(getBooks_query_error env r h conn e hq).2]; exact get_errorHeader h
  · rw [(getBooks_scan_error env r h conn rows hq hex).2]; exact get_errorHeader h

/-- C8, amended, at one input for each path. -/
theorem content_type_by_path_witness :
    (createBook (sampleEnv (.ok sampleId) (.error "")) (postBooks sampleBody)
      (State.init [] [])).w.response.header.Get "Content-Type" = "application/json" ∧
    (getBooks (sampleEnv (.error "") (.ok ⟨sampleRows, none, none⟩)) (getRequest "/api/books")
      (State.init [] [])).w.response.header.Get "Content-Type" = "application/json" ∧
    (createBook (sampleEnv (.ok sampleId) (.error "")) (postBooks truncatedBody)
      (State.init [] [])).w.response.header.Get "Content-Type" = "text/plain; charset=utf-8" ∧
    (createBook (sampleEnv (.error "EOF") (.error "")) (postBooks sampleBody)
      (State.init [] [])).w.response.header.Get "Content-Type" = "text/plain; charset=utf-8" ∧
    (getBooks (sampleEnv (.error "") (.error "EOF")) (getRequest "/api/books")
      (State.init [] [])).w.response.header.Get "Content-Type" = "text/plain; charset=utf-8" ∧
    (getBooks (sampleEnv (.error "") (.ok ⟨[nullRow], none, none⟩)) (getRequest "/api/books")
      (State.init [] [])).w.response.header.Get "Content-Type" = "text/plain; charset=utf-8" :=
  ⟨(content_type_by_path (sampleEnv (.ok sampleId) (.error "")) (postBooks sampleBody)
      [] []).2.1 sampleBook sampleId (by decide) rfl,
   (content_type_by_path (sampleEnv (.error "") (.ok ⟨sampleRows, none, none⟩))
      (getRequest "/api/books") [] []).2.2.1 _ rfl (by decide),
   (content_type_by_path (sampleEnv (.ok sampleId) (.error "")) (postBooks truncatedBody)
      [] []).2.2.2.1 Book.zero "unexpected EOF" (by decide),
   (content_type_by_path (sampleEnv (.error "EOF") (.error "")) (postBooks sampleBody)
      [] []).2.2.2.2.1 sampleBook "EOF" (by decide) rfl,
   (content_type_by_path (sampleEnv (.error "") (.error "EOF")) (getRequest "/api/books")
      [] []).2.2.2.2.2.1 "EOF" rfl,
   (content_type_by_path (sampleEnv (.error "") (.ok ⟨[nullRow], none, none⟩))
      (getRequest "/api/books") [] []).2.2.2.2.2.2 _ rfl ⟨nullRow, by decide, by decide⟩⟩

/-- C9: once decoding has failed, the status of the response of `createBook` is
400 and its content type the plain-text one of the first `http.Error`, whatever
the database answers and whatever the connection does; when the connection
takes the writes, the body is `invalid request payload` followed by
`internal server error` if the insert fails, and followed by the JSON of the
inserted book if the insert succeeds. -/
theorem createBook_decode_failure_400 (env : Env) (r : Request) (h : Header)
    (conn : List (Option String)) (b : Book) (e : String)
    (hd : env.decode r.Body = (b, some e)) :
    (createBook env r (State.init h conn)).w.response.status = 400 ∧
    (createBook env r (State.init h conn)).w.response.header.Get "Content-Type" =
      "text/plain; charset=utf-8" ∧
    (nextOutcome conn = none → nextOutcome conn.tail = none →
      (∀ e2, env.queryRow (insertStmt b) = .error e2 →
        (createBook env r (State.init h conn)).w.response.body =
          "invalid request payload\n" ++ "internal server error\n") ∧
      (∀ i, env.queryRow (insertStmt b) = .ok i →
        (createBook env r (State.init h conn)).w.response.body =
          "invalid request payload\n" ++
            (marshalBook ⟨i, b.ISBN, b.Name, b.Author, b.Year, b.Publisher⟩ ++ "\n"))) := by
  have hst := createBook_decode_error_status env r h conn b e hd
  refine ⟨hst.1, ?_, fun hw hw2 => ⟨fun e2 hq => ?_, fun i hq => ?_⟩⟩
  · rw [hst.2, get_errorHeader]
  · exact createBook_decode_error_body_insert_error env r h conn b e e2 hd hq hw hw2
  · exact createBook_decode_error_body_insert_ok env r h conn b e i hd hq hw hw2

set_option maxRecDepth 8000 in
/-- C9 at the truncated body, once with a database that is down and once with one
that inserts the row. -/
theorem createBook_decode_failure_400_witness :
    ((createBook (sampleEnv (.error "driver: bad connection") (.error ""))
        (postBooks truncatedBody) (State.init [] [])).w.response.status = 400 ∧
      (createBook (sampleEnv (.error "driver: bad connection") (.error ""))
        (postBooks truncatedBody) (State.init [] [])).w.response.body =
        "invalid request payload\ninternal server error\n") ∧
    ((createBook (sampleEnv (.ok sampleId) (.error "")) (postBooks truncatedBody)
        (State.init [] [])).w.response.status = 400 ∧
      (createBook (sampleEnv (.ok sampleId) (.error "")) (postBooks truncatedBody)
        (State.init [] [])).w.response.body =
        "invalid request payload\n\x7b\"id\":\"6ba7b810-9dad-11d1-80b4-00c04fd430c8\",\"isbn\":\"\",\"name\":\"\",\"author\":\"\",\"year\":\"\",\"publisher\":\"\"\x7d\n") := by
  have k1 := createBook_decode_failure_400 (sampleEnv (.error "driver: bad connection")
    (.error "")) (postBooks truncatedBody) [] [] Book.zero "unexpected EOF" (by decide)
  have k2 := createBook_decode_failure_400 (sampleEnv (.ok sampleId) (.error ""))
    (postBooks truncatedBody) [] [] Book.zero "unexpected EOF" (by decide)
  have b1 := (k1.2.2 rfl rfl).1 _ rfl
  have b2 := (k2.2.2 rfl rfl).2 _ rfl
  exact ⟨⟨k1.1, b1.trans (by decide)⟩, ⟨k2.1, b2.trans (by decide)⟩⟩

/-- C10, the code at a failing input: when the iteration fails before the first
row, `getBooks` does not read the terminal error and answers 200, as the claim
says, but the body is `null` (the nil slice of `var books []Book`), which is
not the JSON array of any list of books, the empty one included. -/
theorem getBooks_terminal_error_null :
    (getBooks (sampleEnv (.error "") (.ok ⟨[], some "driver: bad connection", none⟩))
      (getRequest "/api/books") (State.init [] [])).w.response.status = 200 ∧
    (getBooks (sampleEnv (.error "") (.ok ⟨[], some "driver: bad connection", none⟩))
      (getRequest "/api/books") (State.init [] [])).w.response.body = "null\n" ∧
    ∀ l : List Book,
      (getBooks (sampleEnv (.error "") (.ok ⟨[], some "driver: bad connection", none⟩))
        (getRequest "/api/books") (State.init [] [])).w.response.body ≠
          marshalBooks (some l) ++ "\n" := by
  refine ⟨by decide, by decide, fun l hl => ?_⟩
  have hb : (getBooks (sampleEnv (.error "") (.ok ⟨[], some "driver: bad connection", none⟩))
      (getRequest "/api/books") (State.init [] [])).w.response.body = "null\n" := by decide
  rw [hb] at hl
  have := congrArg (fun s => s.data.head?) hl
  simp [marshalBooks] at this

/-- The terminal error of the row iterator is never read by `getBooks`.
Two runs in which the query succeeds and yields the same rows give the same
response, whether the iteration ended by exhaustion or by an error; when the
rows are at least one and all scan, that response is 200 and, the connection
taking the write, its body is the JSON array of the rows scanned. -/
theorem getBooks_ignores_terminal_error (env1 env2 : Env) (r : Request) (h : Header)
    (conn : List (Option String)) (items : List Row) (e1 e2 c1 c2 : Option String)
    (h1 : env1.query selectStmt = .ok ⟨items, e1, c1⟩)
    (h2 : env2.query selectStmt = .ok ⟨items, e2, c2⟩) :
    (getBooks env1 r (State.init h conn)).w.response =
      (getBooks env2 r (State.init h conn)).w.response ∧
    (items ≠ [] → (∀ row ∈ items, row.scanErr = none) →
      (getBooks env2 r (State.init h conn)).w.response.status = 200 ∧
      (nextOutcome conn = none →
        (getBooks env2 r (State.init h conn)).w.response.body =
          "[" ++ joinWith "," (items.map (fun row =>
            marshalBook ⟨row.id, row.isbn, row.name, row.author, row.year, row.publisher⟩))
            ++ "]" ++ "\n")) := by
  refine ⟨?_, fun hne hall => ?_⟩
  · rw [(getBooks_terminal_error_unread r env1 env2 items e1 e2 c1 c2 _ h1 h2).1]
  · have key := getBooks_all_ok env2 r h conn ⟨items, e2, c2⟩ h2 hall
    refine ⟨key.2.1, fun hw => ?_⟩
    rw [key.2.2.2 hw, marshalBooks_rows items hne]

set_option maxRecDepth 8000 in
/-- The two sample rows, read twice: one run exhausts the rows, the other loses
the connection after the second row. -/
theorem getBooks_ignores_terminal_error_witness :
    (getBooks (sampleEnv (.error "") (.ok ⟨sampleRows, none, none⟩)) (getRequest "/api/books")
      (State.init [] [])).w.response =
    (getBooks (sampleEnv (.error "") (.ok ⟨sampleRows, some "driver: bad connection", none⟩))
      (getRequest "/api/books") (State.init [] [])).w.response ∧
    (getBooks (sampleEnv (.error "") (.ok ⟨sampleRows, some "driver: bad connection", none⟩))
      (getRequest "/api/books") (State.init [] [])).w.response.status = 200 ∧
    (getBooks (sampleEnv (.error "") (.ok ⟨sampleRows, some "driver: bad connection", none⟩))
      (getRequest "/api/books") (State.init [] [])).w.response.body =
      "[" ++ joinWith "," (sampleRows.map (fun row =>
        marshalBook ⟨row.id, row.isbn, row.name, row.author, row.year, row.publisher⟩))
        ++ "]" ++ "\n" := by
  have key := getBooks_ignores_terminal_error
    (sampleEnv (.error "") (.ok ⟨sampleRows, none, none⟩))
    (sampleEnv (.error "") (.ok ⟨sampleRows, some "driver: bad connection", none⟩))
    (getRequest "/api/books") [] [] sampleRows none (some "driver: bad connection") none none
    rfl rfl
  have k2 := key.2 (by decide) (by decide)
  exact ⟨key.1, k2.1, k2.2 rfl⟩

end Bookstore
